import Mathlib

/-!
# Verification of the ClickUp MCP tool adapter

Shallow embedding of `src/clickup-server/src/index.ts`: a protocol adapter
exposing two tools (`list_tasks`, `create_task`) that forward HTTP calls to
the ClickUp API. JavaScript runtime values appearing at the untyped tool
boundary are modelled by the inductive `JVal`; JS numbers are modelled as
rationals (`Rat`), which is enough to distinguish integral from non-integral
numbers. The handler is modelled as a pure function parameterised by an
oracle for the remote HTTP service; it returns both its outcome (a thrown
protocol error or a returned response) and the list of HTTP requests it
issued, so that "issues no remote call" is expressible.
-/

set_option autoImplicit false

namespace ClickUp

/-- A JavaScript/JSON value as it appears in tool arguments, HTTP bodies and
HTTP response data. JS numbers are modelled as `Rat` (so non-integral numbers
such as 1.5 are representable); `undefined` is modelled by absence
(`Option.none` at lookup sites), matching `obj?.field` access in the source. -/
inductive JVal where
  | jnull
  | jbool (b : Bool)
  | jnum (q : Rat)
  | jstr (s : String)
  | jarr (elems : List JVal)
  | jobj (fields : List (String × JVal))
  deriving Repr

/-- First-match field lookup on an object's field list; `none` models the JS
`undefined` produced by accessing an absent property. -/
def objLookup : List (String × JVal) → String → Option JVal
  | [], _ => none
  | (k, v) :: fs, key => if k = key then some v else objLookup fs key

/-- Property access `v.field` on an arbitrary value: only objects have
fields; on anything else the result is `undefined` (`none`). -/
def jfield (v : JVal) (key : String) : Option JVal :=
  match v with
  | .jobj fs => objLookup fs key
  | _ => none

/-- JS truthiness: `false`, `0`, the empty string, `null` (and `undefined`,
modelled by absence) are falsy; every other value, including any array or
object, is truthy. Used for `if (description)`, `if (assignees)` and the
`err || message` fallback in the source. -/
def truthy : JVal → Bool
  | .jnull => false
  | .jbool b => b
  | .jnum q => !(q == 0)
  | .jstr s => !(s == "")
  | .jarr _ => true
  | .jobj _ => true

/-- `typeof v === 'number'` (true of every JS number, integral or not). -/
def isNum : JVal → Bool
  | .jnum _ => true
  | _ => false

/-- A hexadecimal digit for `\u00XX` escapes of control characters. -/
def hexDigit (n : Nat) : Char :=
  if n < 10 then Char.ofNat (48 + n) else Char.ofNat (87 + n)

/-- JSON string escaping as performed by `JSON.stringify` on the characters
exercised here: quote, backslash, and the C0 control characters. -/
def escChar (c : Char) : String :=
  if c = '"' then "\\\""
  else if c = '\\' then "\\\\"
  else if c = '\n' then "\\n"
  else if c = '\t' then "\\t"
  else if c = '\r' then "\\r"
  else if c.toNat < 32 then
    "\\u00" ++ String.mk [hexDigit (c.toNat / 16), hexDigit (c.toNat % 16)]
  else String.singleton c

/-- Escape every character of a string for JSON output. -/
def escString (s : String) : String :=
  String.join (s.data.map escChar)

/-- A JSON string literal: escaped content between double quotes. -/
def jsonQuote (s : String) : String :=
  "\"" ++ escString s ++ "\""

/-- Serialization of a JS number by `JSON.stringify`. Integral values print
as plain integers, matching JS. (Non-integral numbers never reach
`JSON.stringify` in any behaviour the claims exercise; their JS decimal
formatting is approximated by the rational's own representation.) -/
def jnumToString (q : Rat) : String :=
  if q.den = 1 then toString q.num else toString q

mutual

/-- `JSON.stringify(v, null, 2)` at current indentation `ind`: objects and
arrays open a line, indent their members by two further spaces, and close at
the enclosing indentation, exactly as ECMA-262's serialization with a
two-space gap. -/
def sVal (ind : String) : JVal → String
  | .jnull => "null"
  | .jbool b => cond b "true" "false"
  | .jnum q => jnumToString q
  | .jstr s => jsonQuote s
  | .jarr [] => "[]"
  | .jarr (v :: vs) =>
      "[\n" ++ String.intercalate ",\n" (sItems (ind ++ "  ") (v :: vs))
      ++ "\n" ++ ind ++ "]"
  | .jobj [] => "{}"
  | .jobj (f :: fs) =>
      "\x7b\n" ++ String.intercalate ",\n" (sFields (ind ++ "  ") (f :: fs))
      ++ "\n" ++ ind ++ "\x7d"

/-- Array elements, each on its own indented line. -/
def sItems (ind : String) : List JVal → List String
  | [] => []
  | v :: vs => (ind ++ sVal ind v) :: sItems ind vs

/-- Object members, each `"key": value` on its own indented line. -/
def sFields (ind : String) : List (String × JVal) → List String
  | [] => []
  | (k, v) :: fs => (ind ++ jsonQuote k ++ ": " ++ sVal ind v) :: sFields ind fs

end

/-- `JSON.stringify(v, null, 2)`: pretty-printed JSON with two-space
indentation, starting at the left margin. -/
def stringify (v : JVal) : String :=
  sVal "" v

mutual

/-- String conversion of a value inside a template literal, as in
`` `Error listing tasks: ${errorMessage}` ``. Strings pass through; arrays
join their elements with commas; plain objects print `[object Object]`. -/
def jsToString : JVal → String
  | .jnull => "null"
  | .jbool b => cond b "true" "false"
  | .jnum q => jnumToString q
  | .jstr s => s
  | .jarr vs => String.intercalate "," (jsItems vs)
  | .jobj _ => "[object Object]"

/-- Elements of an array under JS string conversion (`null` elements print
as the empty string, per `Array.prototype.join`). -/
def jsItems : List JVal → List String
  | [] => []
  | .jnull :: vs => "" :: jsItems vs
  | v :: vs => jsToString v :: jsItems vs

end

/-! ## Protocol and HTTP modelling -/

/-- The MCP error codes the source uses (`ErrorCode.InvalidParams`,
`ErrorCode.MethodNotFound`). -/
inductive McpCode where
  | invalidParams
  | methodNotFound
  deriving Repr, DecidableEq

/-- `new McpError(code, message)`: a thrown protocol-level fault. -/
structure McpError where
  code : McpCode
  message : String
  deriving Repr, DecidableEq

/-- HTTP method of an outbound request (`clickupApi.get` / `clickupApi.post`). -/
inductive HttpMethod where
  | get
  | post
  deriving Repr, DecidableEq

/-- One outbound HTTP request against the fixed base address
`https://api.clickup.com/api/v2`; `url` is the path appended to it, and
`body` is the JSON payload (`none` for GET). -/
structure HttpRequest where
  method : HttpMethod
  url : String
  body : Option JVal
  deriving Repr

/-- A settled HTTP response: status code and parsed JSON `data`, as axios
exposes them. -/
structure HttpResponse where
  status : Nat
  data : JVal
  deriving Repr

/-- The error object axios throws on failure: for a non-2xx status,
`response` holds the remote response; for a network failure, `response` is
absent. `message` is the generic transport error message (for example
"Request failed with status code 404"). -/
structure AxiosError where
  response : Option HttpResponse
  message : String
  deriving Repr

/-- Outcome of one awaited axios call: either a 2xx response or a thrown
`AxiosError` caught by the handler's try/catch. -/
inductive RemoteResult where
  | success (resp : HttpResponse)
  | failure (e : AxiosError)
  deriving Repr

/-- The behaviour of the remote service, supplied as an oracle: what each
issued request settles to. -/
def RemoteOracle : Type := HttpRequest → RemoteResult

/-- One `{type, text}` content entry of a tool response. `text` is
`Option String` because the source writes `text: JSON.stringify(...)`,
which is the JS `undefined` (`none`) when the serialized value is absent. -/
structure ContentItem where
  type : String
  text : Option String
  deriving Repr

/-- A tool invocation response: content entries plus the error flag. The
source omits `isError` on success, which the protocol reads as unset; that
is modelled as `isError = false`. -/
structure ToolResponse where
  content : List ContentItem
  isError : Bool
  deriving Repr

/-- How a tool invocation ends: a thrown `McpError` (protocol fault) or a
normally returned response (including soft failures with `isError` set). -/
inductive CallOutcome where
  | thrown (e : McpError)
  | reply (r : ToolResponse)
  deriving Repr

/-- Result of running the call handler: its outcome together with the
HTTP requests it issued (so "issues no remote call" is observable). -/
structure CallResult where
  outcome : CallOutcome
  requests : List HttpRequest
  deriving Repr

/-- `request.params` of a tool invocation: tool name and the optional,
untyped arguments object. -/
structure CallParams where
  name : String
  arguments : Option (List (String × JVal))
  deriving Repr

/-- `request.params.arguments?.key`: `undefined` (`none`) when the
arguments object is absent or lacks the key. -/
def getArg (p : CallParams) (key : String) : Option JVal :=
  match p.arguments with
  | none => none
  | some fs => objLookup fs key

/-! ## The call-tool handler -/

/-- `error.response?.data?.err || error.message`: the best-effort error
message. If the caught error carries a response whose data has a truthy
`err` field, that field (string-converted); otherwise the transport
message. -/
def axiosErrMessage (e : AxiosError) : String :=
  match e.response with
  | some resp =>
      match jfield resp.data "err" with
      | some v => if truthy v then jsToString v else e.message
      | none => e.message
  | none => e.message

/-- The `list_tasks` branch of the call handler: validate `list_id` is a
string (throwing `InvalidParams` otherwise, before any remote call), issue
`GET /list/{listId}/task`, and shape success as the pretty-printed `tasks`
field or failure as an error-flagged text response. -/
def listTasksRun (remote : RemoteOracle) (p : CallParams) : CallResult :=
  match getArg p "list_id" with
  | some (.jstr listId) =>
      let req : HttpRequest := ⟨.get, "/list/" ++ listId ++ "/task", none⟩
      match remote req with
      | .success resp =>
          { outcome := .reply
              { content := [⟨"text", (jfield resp.data "tasks").map stringify⟩]
                isError := false }
            requests := [req] }
      | .failure e =>
          { outcome := .reply
              { content := [⟨"text", some ("Error listing tasks: " ++ axiosErrMessage e)⟩]
                isError := true }
            requests := [req] }
  | _ =>
      { outcome := .thrown ⟨.invalidParams, "list_id (string) is required"⟩
        requests := [] }

/-- `description !== undefined && typeof description !== 'string'` fails
validation: absent is fine, present must be a string. -/
def descOk : Option JVal → Bool
  | none => true
  | some (.jstr _) => true
  | some _ => false

/-- `assignees !== undefined && (!Array.isArray(assignees) ||
!assignees.every(id => typeof id === 'number'))` fails validation: absent is
fine, present must be an array whose every element is a JS number (the check
is `typeof === 'number'`, not integrality). -/
def assigneesOk : Option JVal → Bool
  | none => true
  | some (.jarr vs) => vs.all isNum
  | some _ => false

/-- The POST payload built by `create_task`: `{ name }`, then `description`
added only when truthy (a non-empty string, given validation), then
`assignees` added only when truthy (any validated array is). -/
def createTaskPayload (taskName : String) (descA assA : Option JVal) : JVal :=
  .jobj ([("name", JVal.jstr taskName)]
    ++ (match descA with
        | some d => if truthy d then [("description", d)] else []
        | none => [])
    ++ (match assA with
        | some a => if truthy a then [("assignees", a)] else []
        | none => []))

/-- The `create_task` branch of the call handler, with the source's
validation order: `list_id` must be a non-empty string (`typeof !== 'string'
|| !listId`), then `name` likewise, then `description` and `assignees` shape
checks; all violations throw `InvalidParams` before any remote call. On
success of validation, issue `POST /list/{listId}/task` with the built
payload and shape the response or the caught error. -/
def createTaskRun (remote : RemoteOracle) (p : CallParams) : CallResult :=
  let listIdA := getArg p "list_id"
  let nameA := getArg p "name"
  let descA := getArg p "description"
  let assA := getArg p "assignees"
  match listIdA with
  | some (.jstr listId) =>
      if listId = "" then
        { outcome := .thrown ⟨.invalidParams, "list_id (string) is required"⟩
          requests := [] }
      else
        match nameA with
        | some (.jstr taskName) =>
            if taskName = "" then
              { outcome := .thrown ⟨.invalidParams, "name (string) is required"⟩
                requests := [] }
            else if !descOk descA then
              { outcome := .thrown ⟨.invalidParams, "description must be a string if provided"⟩
                requests := [] }
            else if !assigneesOk assA then
              { outcome := .thrown
                  ⟨.invalidParams, "assignees must be an array of numbers if provided"⟩
                requests := [] }
            else
              let req : HttpRequest :=
                ⟨.post, "/list/" ++ listId ++ "/task",
                 some (createTaskPayload taskName descA assA)⟩
              match remote req with
              | .success resp =>
                  { outcome := .reply
                      { content := [⟨"text", some (stringify resp.data)⟩]
                        isError := false }
                    requests := [req] }
              | .failure e =>
                  { outcome := .reply
                      { content :=
                          [⟨"text", some ("Error creating task: " ++ axiosErrMessage e)⟩]
                        isError := true }
                    requests := [req] }
        | _ =>
            { outcome := .thrown ⟨.invalidParams, "name (string) is required"⟩
              requests := [] }
  | _ =>
      { outcome := .thrown ⟨.invalidParams, "list_id (string) is required"⟩
        requests := [] }

/-- The `CallToolRequestSchema` handler: dispatch on the tool name; any
name other than the two declared tools throws a `MethodNotFound` protocol
fault without issuing a request. -/
def callToolHandler (remote : RemoteOracle) (p : CallParams) : CallResult :=
  if p.name = "list_tasks" then listTasksRun remote p
  else if p.name = "create_task" then createTaskRun remote p
  else
    { outcome := .thrown ⟨.methodNotFound, "Unknown tool: " ++ p.name⟩
      requests := [] }

/-! ## Startup and the tool catalog -/

/-- The startup credential check:
`const CLICKUP_API_KEY = process.env.CLICKUP_API_KEY; if (!CLICKUP_API_KEY)
throw new Error(...)`. The environment variable is `none` when unset; a set
but falsy (empty) value also aborts, because `!CLICKUP_API_KEY` tests JS
truthiness. -/
def startupCheck (env : Option String) : Except String String :=
  match env with
  | none => .error "CLICKUP_API_KEY environment variable is required"
  | some k =>
      if k = "" then .error "CLICKUP_API_KEY environment variable is required"
      else .ok k

/-- The whole serving life of the process as a function of the environment:
the startup check runs before the server is connected, so if it aborts, no
request is ever handled; otherwise each arriving call is handled
independently by `callToolHandler`. -/
def serveRequests (env : Option String) (remote : RemoteOracle)
    (reqs : List CallParams) : List CallResult :=
  match startupCheck env with
  | .error _ => []
  | .ok _ => reqs.map (callToolHandler remote)

/-- One declared tool of the catalog: name, description, and the JSON-schema
object advertised for its input. -/
structure ToolDef where
  name : String
  descr : String
  inputSchema : JVal
  deriving Repr

/-- The `list_tasks` entry of the static catalog, fields as declared in the
`ListToolsRequestSchema` handler. -/
def listTasksTool : ToolDef where
  name := "list_tasks"
  descr := "List tasks from a ClickUp list"
  inputSchema := .jobj
    [("type", .jstr "object"),
     ("properties", .jobj
       [("list_id", .jobj
         [("type", .jstr "string"),
          ("description", .jstr "The ID of the ClickUp list")])]),
     ("required", .jarr [.jstr "list_id"])]

/-- The `create_task` entry of the static catalog, fields as declared in the
`ListToolsRequestSchema` handler. -/
def createTaskTool : ToolDef where
  name := "create_task"
  descr := "Create a new task in a ClickUp list"
  inputSchema := .jobj
    [("type", .jstr "object"),
     ("properties", .jobj
       [("list_id", .jobj
         [("type", .jstr "string"),
          ("description", .jstr "The ID of the ClickUp list to add the task to")]),
        ("name", .jobj
         [("type", .jstr "string"),
          ("description", .jstr "The name of the new task")]),
        ("description", .jobj
         [("type", .jstr "string"),
          ("description", .jstr "Optional description for the task")]),
        ("assignees", .jobj
         [("type", .jstr "array"),
          ("items", .jobj [("type", .jstr "integer")]),
          ("description", .jstr "Optional array of user IDs to assign the task to")])]),
     ("required", .jarr [.jstr "list_id", .jstr "name"])]

/-- The `ListToolsRequestSchema` handler: a pure function of no input that
returns the fixed catalog, so every query yields the same two tools. -/
def listToolsHandler (_ : Unit) : List ToolDef :=
  [listTasksTool, createTaskTool]

/-! ## Helper lemmas -/

/-- Dispatch: an invocation named `list_tasks` runs the `list_tasks` branch. -/
theorem callTool_listTasks (remote : RemoteOracle)
    (args : Option (List (String × JVal))) :
    callToolHandler remote ⟨"list_tasks", args⟩ = listTasksRun remote ⟨"list_tasks", args⟩ :=
  rfl

/-- Dispatch: an invocation named `create_task` runs the `create_task` branch. -/
theorem callTool_createTask (remote : RemoteOracle)
    (args : Option (List (String × JVal))) :
    callToolHandler remote ⟨"create_task", args⟩ = createTaskRun remote ⟨"create_task", args⟩ :=
  rfl

/-- When `list_id` is a string, `list_tasks` issues exactly one GET and
shapes whatever the remote returns. -/
theorem listTasksRun_valid (remote : RemoteOracle) (p : CallParams) (l : String)
    (hl : getArg p "list_id" = some (.jstr l)) :
    listTasksRun remote p =
      match remote ⟨.get, "/list/" ++ l ++ "/task", none⟩ with
      | .success resp =>
          ⟨.reply ⟨[⟨"text", (jfield resp.data "tasks").map stringify⟩], false⟩,
           [⟨.get, "/list/" ++ l ++ "/task", none⟩]⟩
      | .failure e =>
          ⟨.reply ⟨[⟨"text", some ("Error listing tasks: " ++ axiosErrMessage e)⟩], true⟩,
           [⟨.get, "/list/" ++ l ++ "/task", none⟩]⟩ := by
  unfold listTasksRun
  rw [hl]

/-- When all four argument validations pass, `create_task` issues exactly one
POST with the built payload and shapes whatever the remote returns. -/
theorem createTaskRun_valid (remote : RemoteOracle) (p : CallParams) (l n : String)
    (hl : getArg p "list_id" = some (.jstr l)) (hl0 : l ≠ "")
    (hn : getArg p "name" = some (.jstr n)) (hn0 : n ≠ "")
    (hd : descOk (getArg p "description") = true)
    (ha : assigneesOk (getArg p "assignees") = true) :
    createTaskRun remote p =
      match remote ⟨.post, "/list/" ++ l ++ "/task",
          some (createTaskPayload n (getArg p "description") (getArg p "assignees"))⟩ with
      | .success resp =>
          ⟨.reply ⟨[⟨"text", some (stringify resp.data)⟩], false⟩,
           [⟨.post, "/list/" ++ l ++ "/task",
             some (createTaskPayload n (getArg p "description") (getArg p "assignees"))⟩]⟩
      | .failure e =>
          ⟨.reply ⟨[⟨"text", some ("Error creating task: " ++ axiosErrMessage e)⟩], true⟩,
           [⟨.post, "/list/" ++ l ++ "/task",
             some (createTaskPayload n (getArg p "description") (getArg p "assignees"))⟩]⟩ := by
  unfold createTaskRun
  rw [hl, hn]
  dsimp only
  rw [if_neg hl0, if_neg hn0, hd, ha]
  rfl

/-- Every validation failure of `create_task` is a thrown `InvalidParams`
with no request issued: if any of the four checks fails, the result is one
of the three invalid-parameter outcomes. -/
theorem createTaskRun_invalid (remote : RemoteOracle) (p : CallParams)
    (h : ¬ (∃ l n, getArg p "list_id" = some (.jstr l) ∧ l ≠ ""
        ∧ getArg p "name" = some (.jstr n) ∧ n ≠ ""
        ∧ descOk (getArg p "description") = true
        ∧ assigneesOk (getArg p "assignees") = true)) :
    ∃ m, createTaskRun remote p = ⟨.thrown ⟨.invalidParams, m⟩, []⟩ := by
  unfold createTaskRun
  rcases hL : getArg p "list_id" with _ | v
  · exact ⟨_, rfl⟩
  · cases v with
    | jstr l =>
        dsimp only
        by_cases hl0 : l = ""
        · rw [if_pos hl0]; exact ⟨_, rfl⟩
        · rw [if_neg hl0]
          rcases hN : getArg p "name" with _ | w
          · exact ⟨_, rfl⟩
          · cases w with
            | jstr n =>
                dsimp only
                by_cases hn0 : n = ""
                · rw [if_pos hn0]; exact ⟨_, rfl⟩
                · rw [if_neg hn0]
                  cases hd : descOk (getArg p "description") with
                  | false => exact ⟨_, rfl⟩
                  | true =>
                      cases ha : assigneesOk (getArg p "assignees") with
                      | false => exact ⟨_, rfl⟩
                      | true => exact absurd ⟨l, n, hL, hl0, hN, hn0, hd, ha⟩ h
            | jnull => exact ⟨_, rfl⟩
            | jbool b => exact ⟨_, rfl⟩
            | jnum q => exact ⟨_, rfl⟩
            | jarr es => exact ⟨_, rfl⟩
            | jobj fs => exact ⟨_, rfl⟩
    | jnull => exact ⟨_, rfl⟩
    | jbool b => exact ⟨_, rfl⟩
    | jnum q => exact ⟨_, rfl⟩
    | jarr es => exact ⟨_, rfl⟩
    | jobj fs => exact ⟨_, rfl⟩

/-! ## Claim C1 -/

/-- C1 (counterexample): invoking `create_task` with arguments containing
only `list_id` and `name` forwards a single POST whose body is
`{"name": "T"}` alone — the body has no `list_id` key (that value travels in
the URL path), so the claim that the body contains exactly the two fields
`list_id` and `name` is false at this input. -/
theorem c1_minimal_body_lacks_list_id :
    (callToolHandler (fun _ => .success ⟨200, .jobj []⟩)
      ⟨"create_task", some [("list_id", .jstr "l1"), ("name", .jstr "T")]⟩).requests =
      [⟨.post, "/list/l1/task", some (.jobj [("name", .jstr "T")])⟩]
    ∧ jfield (.jobj [("name", JVal.jstr "T")]) "list_id" = none :=
  ⟨rfl, rfl⟩

/-- C1 (amended): for every invocation of `create_task` whose arguments
contain only `list_id` and `name` (both strings, validation succeeding), the
body of the single forwarded POST contains exactly the one field `name`,
with no `description` and no `assignees` key; `list_id` is carried in the
request URL path instead of the body. -/
theorem c1_minimal_body_exactly_name (remote : RemoteOracle)
    (args : Option (List (String × JVal))) (l n : String)
    (hl : getArg ⟨"create_task", args⟩ "list_id" = some (.jstr l)) (hl0 : l ≠ "")
    (hn : getArg ⟨"create_task", args⟩ "name" = some (.jstr n)) (hn0 : n ≠ "")
    (hd : getArg ⟨"create_task", args⟩ "description" = none)
    (ha : getArg ⟨"create_task", args⟩ "assignees" = none) :
    (callToolHandler remote ⟨"create_task", args⟩).requests =
      [⟨.post, "/list/" ++ l ++ "/task", some (.jobj [("name", .jstr n)])⟩] := by
  rw [callTool_createTask,
      createTaskRun_valid remote _ l n hl hl0 hn hn0 (by rw [hd]; rfl) (by rw [ha]; rfl)]
  rw [hd, ha]
  cases remote ⟨.post, "/list/" ++ l ++ "/task", some (createTaskPayload n none none)⟩ <;> rfl

/-- C1 (witness): the amended statement at a concrete invocation. -/
theorem c1_minimal_body_exactly_name_witness :
    (callToolHandler (fun _ => .success ⟨200, .jobj []⟩)
      ⟨"create_task", some [("list_id", .jstr "7"), ("name", .jstr "N")]⟩).requests =
      [⟨.post, "/list/7/task", some (.jobj [("name", .jstr "N")])⟩] :=
  c1_minimal_body_exactly_name (fun _ => .success ⟨200, .jobj []⟩)
    (some [("list_id", .jstr "7"), ("name", .jstr "N")]) "7" "N"
    rfl (by decide) rfl (by decide) rfl rfl

/-! ## Claim C2 -/

/-- The rational 3/2: a JS number that is not an integer. -/
def threeHalves : Rat := ⟨3, 2, by decide, by decide⟩

/-- C2 (counterexample): `3/2` is not an integer, yet an invocation of
`create_task` whose `assignees` contains the non-integral number `3/2`
passes validation: the handler issues the remote POST (forwarding `3/2` in
the payload) and returns a normal reply, instead of failing with
invalid-parameters and issuing no request. The runtime check is
`typeof id === 'number'`, which accepts any JS number. -/
theorem c2_accepts_noninteger_number_assignee :
    threeHalves.den ≠ 1
    ∧ (callToolHandler (fun _ => .success ⟨200, .jobj []⟩)
        ⟨"create_task", some [("list_id", .jstr "l"), ("name", .jstr "t"),
          ("assignees", .jarr [.jnum threeHalves])]⟩).requests =
      [⟨.post, "/list/l/task",
        some (.jobj [("name", .jstr "t"), ("assignees", .jarr [.jnum threeHalves])])⟩]
    ∧ (callToolHandler (fun _ => .success ⟨200, .jobj []⟩)
        ⟨"create_task", some [("list_id", .jstr "l"), ("name", .jstr "t"),
          ("assignees", .jarr [.jnum threeHalves])]⟩).outcome =
      .reply ⟨[⟨"text", some "{}"⟩], false⟩ :=
  ⟨by decide, rfl, rfl⟩

/-- C2 (amended): for every invocation of `create_task` in which the
`assignees` argument is present but contains at least one element that is
not a number (`typeof !== 'number'`), the handler throws the
invalid-parameters protocol error and issues no remote HTTP request. -/
theorem c2_nonnumber_assignee_rejected (remote : RemoteOracle)
    (args : Option (List (String × JVal))) (xs : List JVal) (v : JVal)
    (ha : getArg ⟨"create_task", args⟩ "assignees" = some (.jarr xs))
    (hv : v ∈ xs) (hnum : isNum v = false) :
    ∃ m, callToolHandler remote ⟨"create_task", args⟩ =
      ⟨.thrown ⟨.invalidParams, m⟩, []⟩ := by
  rw [callTool_createTask]
  apply createTaskRun_invalid
  rintro ⟨l, n, _, _, _, _, _, hA⟩
  rw [ha] at hA
  have hall : ∀ w ∈ xs, isNum w = true := by
    simpa [assigneesOk, List.all_eq_true] using hA
  rw [hall v hv] at hnum
  exact absurd hnum (by decide)

/-- C2 (witness): the amended statement at a concrete invocation whose
`assignees` contains a string element. -/
theorem c2_nonnumber_assignee_rejected_witness :
    ∃ m, callToolHandler (fun _ => .success ⟨200, .jobj []⟩)
      ⟨"create_task", some [("list_id", .jstr "l"), ("name", .jstr "t"),
        ("assignees", .jarr [.jstr "u1"])]⟩ =
      ⟨.thrown ⟨.invalidParams, m⟩, []⟩ :=
  c2_nonnumber_assignee_rejected (fun _ => .success ⟨200, .jobj []⟩)
    (some [("list_id", .jstr "l"), ("name", .jstr "t"),
      ("assignees", .jarr [.jstr "u1"])])
    [.jstr "u1"] (.jstr "u1") rfl (List.mem_singleton.mpr rfl) rfl

/-! ## Claim C3 -/

/-- C3 (counterexample): a remote failure whose body carries the error
string field `err` with value `""` — the field is present — yields a soft
error whose text uses the generic transport message, not the supplied field:
the `||` fallback in the source tests truthiness, and the empty string is
falsy. This refutes "uses the remote-supplied error string field when
present". -/
theorem c3_present_empty_err_uses_generic_message :
    jfield (JVal.jobj [("err", .jstr "")]) "err" = some (.jstr "")
    ∧ (callToolHandler (fun _ => .failure ⟨some ⟨404, .jobj [("err", .jstr "")]⟩,
        "Request failed with status code 404"⟩)
        ⟨"list_tasks", some [("list_id", .jstr "123")]⟩).outcome =
      .reply ⟨[⟨"text", some "Error listing tasks: Request failed with status code 404"⟩], true⟩
    ∧ ("Error listing tasks: Request failed with status code 404" : String) ≠
        "Error listing tasks: " :=
  ⟨rfl, rfl, by decide⟩

/-- C3 (amended): every failure of the remote HTTP call makes the handler
return (not throw) a response with the error flag set, for `list_tasks` and
`create_task` alike; its text message uses the remote-supplied `err` string
field when that field is present and non-empty, and the generic transport
error message otherwise (in particular on a network error with no response).
A 404 whose body is `{"err": "List not found"}` therefore produces an
error-flagged `list_tasks` reply whose text carries "List not found". -/
theorem c3_remote_failure_soft_error (remote remoteC : RemoteOracle)
    (lArgs cArgs : Option (List (String × JVal))) (l cl cn : String)
    (e eC : AxiosError)
    (hl : getArg ⟨"list_tasks", lArgs⟩ "list_id" = some (.jstr l))
    (hrem : remote ⟨.get, "/list/" ++ l ++ "/task", none⟩ = .failure e)
    (hcl : getArg ⟨"create_task", cArgs⟩ "list_id" = some (.jstr cl)) (hcl0 : cl ≠ "")
    (hcn : getArg ⟨"create_task", cArgs⟩ "name" = some (.jstr cn)) (hcn0 : cn ≠ "")
    (hcd : descOk (getArg ⟨"create_task", cArgs⟩ "description") = true)
    (hca : assigneesOk (getArg ⟨"create_task", cArgs⟩ "assignees") = true)
    (hremC : remoteC ⟨.post, "/list/" ++ cl ++ "/task",
      some (createTaskPayload cn (getArg ⟨"create_task", cArgs⟩ "description")
        (getArg ⟨"create_task", cArgs⟩ "assignees"))⟩ = .failure eC) :
    (callToolHandler remote ⟨"list_tasks", lArgs⟩).outcome =
      .reply ⟨[⟨"text", some ("Error listing tasks: " ++ axiosErrMessage e)⟩], true⟩
    ∧ (callToolHandler remoteC ⟨"create_task", cArgs⟩).outcome =
      .reply ⟨[⟨"text", some ("Error creating task: " ++ axiosErrMessage eC)⟩], true⟩
    ∧ (∀ resp s, e.response = some resp → jfield resp.data "err" = some (.jstr s) →
        s ≠ "" → axiosErrMessage e = s)
    ∧ (e.response = none → axiosErrMessage e = e.message) := by
  refine ⟨?_, ?_, ?_, ?_⟩
  · rw [callTool_listTasks, listTasksRun_valid remote _ l hl, hrem]
  · rw [callTool_createTask,
        createTaskRun_valid remoteC _ cl cn hcl hcl0 hcn hcn0 hcd hca, hremC]
  · intro resp s hresp herr hs
    unfold axiosErrMessage
    rw [hresp]
    dsimp only
    rw [herr]
    simp [truthy, jsToString, hs]
  · intro hnone
    unfold axiosErrMessage
    rw [hnone]

/-- C3 (witness): the amended statement at the spec's concrete inputs — a
404 with body `{"err": "List not found"}` for `list_tasks`, and a network
error for `create_task`. -/
theorem c3_remote_failure_soft_error_witness :
    (callToolHandler (fun _ => .failure ⟨some ⟨404, .jobj [("err", .jstr "List not found")]⟩,
        "Request failed with status code 404"⟩)
      ⟨"list_tasks", some [("list_id", .jstr "123")]⟩).outcome =
      .reply ⟨[⟨"text", some "Error listing tasks: List not found"⟩], true⟩
    ∧ (callToolHandler (fun _ => .failure ⟨none, "Network Error"⟩)
      ⟨"create_task", some [("list_id", .jstr "9"), ("name", .jstr "W")]⟩).outcome =
      .reply ⟨[⟨"text", some "Error creating task: Network Error"⟩], true⟩ := by
  have h := c3_remote_failure_soft_error
    (fun _ => .failure ⟨some ⟨404, .jobj [("err", .jstr "List not found")]⟩,
      "Request failed with status code 404"⟩)
    (fun _ => .failure ⟨none, "Network Error"⟩)
    (some [("list_id", .jstr "123")])
    (some [("list_id", .jstr "9"), ("name", .jstr "W")])
    "123" "9" "W"
    ⟨some ⟨404, .jobj [("err", .jstr "List not found")]⟩,
      "Request failed with status code 404"⟩
    ⟨none, "Network Error"⟩
    rfl rfl rfl (by decide) rfl (by decide) rfl rfl rfl
  exact ⟨h.1, h.2.1⟩

/-! ## Claim C4 -/

/-- C4: for every invocation of `list_tasks` whose remote call succeeds and
whose response data carries a `tasks` field, the reply has the error flag
unset and exactly one content entry of type `text`, whose text is the
pretty-printed JSON serialization (two-space indentation) of that `tasks`
field. -/
theorem c4_listTasks_success_pretty_tasks (remote : RemoteOracle)
    (args : Option (List (String × JVal))) (l : String)
    (resp : HttpResponse) (tasks : JVal)
    (hl : getArg ⟨"list_tasks", args⟩ "list_id" = some (.jstr l))
    (hrem : remote ⟨.get, "/list/" ++ l ++ "/task", none⟩ = .success resp)
    (ht : jfield resp.data "tasks" = some tasks) :
    (callToolHandler remote ⟨"list_tasks", args⟩).outcome =
      .reply ⟨[⟨"text", some (stringify tasks)⟩], false⟩ := by
  rw [callTool_listTasks, listTasksRun_valid remote _ l hl, hrem]
  dsimp only
  rw [ht]
  rfl

/-- C4 (witness): the spec's concrete example — a successful remote
response `{"tasks": [{"id":"1","name":"A"}]}` yields an unflagged reply
whose text is exactly the two-space pretty-printing of that array. -/
theorem c4_listTasks_success_pretty_tasks_witness :
    (callToolHandler
      (fun _ => .success ⟨200,
        .jobj [("tasks", .jarr [.jobj [("id", .jstr "1"), ("name", .jstr "A")]])]⟩)
      ⟨"list_tasks", some [("list_id", .jstr "123")]⟩).outcome =
      .reply ⟨[⟨"text",
          some "[\n  \x7b\n    \"id\": \"1\",\n    \"name\": \"A\"\n  \x7d\n]"⟩],
        false⟩ := by
  have h := c4_listTasks_success_pretty_tasks
    (fun _ => .success ⟨200,
      .jobj [("tasks", .jarr [.jobj [("id", .jstr "1"), ("name", .jstr "A")]])]⟩)
    (some [("list_id", .jstr "123")]) "123"
    ⟨200, .jobj [("tasks", .jarr [.jobj [("id", .jstr "1"), ("name", .jstr "A")]])]⟩
    (.jarr [.jobj [("id", .jstr "1"), ("name", .jstr "A")]])
    rfl rfl rfl
  exact h

/-! ## Claim C5 -/

/-- C5: every invocation naming a tool other than `list_tasks` and
`create_task` throws a method-not-found protocol fault, issues no request,
and never returns a soft error-flagged response for this case. -/
theorem c5_unknown_tool_method_not_found (remote : RemoteOracle) (p : CallParams)
    (h1 : p.name ≠ "list_tasks") (h2 : p.name ≠ "create_task") :
    callToolHandler remote p =
      ⟨.thrown ⟨.methodNotFound, "Unknown tool: " ++ p.name⟩, []⟩ := by
  unfold callToolHandler
  rw [if_neg h1, if_neg h2]

/-- C5 (witness): the statement at the concrete undeclared tool name
`delete_task`. -/
theorem c5_unknown_tool_method_not_found_witness :
    callToolHandler (fun _ => .success ⟨200, .jobj []⟩) ⟨"delete_task", none⟩ =
      ⟨.thrown ⟨.methodNotFound, "Unknown tool: delete_task"⟩, []⟩ :=
  c5_unknown_tool_method_not_found (fun _ => .success ⟨200, .jobj []⟩)
    ⟨"delete_task", none⟩ (by decide) (by decide)

/-! ## Claim C6 -/

/-- C6: every invocation of `list_tasks` whose arguments lack a `list_id`
field, or whose `list_id` is not a string, throws the invalid-parameters
protocol error and issues no remote HTTP request. -/
theorem c6_listTasks_bad_list_id_invalid_params (remote : RemoteOracle)
    (args : Option (List (String × JVal)))
    (h : ∀ s : String, getArg ⟨"list_tasks", args⟩ "list_id" ≠ some (.jstr s)) :
    callToolHandler remote ⟨"list_tasks", args⟩ =
      ⟨.thrown ⟨.invalidParams, "list_id (string) is required"⟩, []⟩ := by
  rw [callTool_listTasks]
  unfold listTasksRun
  rcases hL : getArg ⟨"list_tasks", args⟩ "list_id" with _ | v
  · rfl
  · cases v with
    | jstr s => exact absurd hL (h s)
    | jnull => rfl
    | jbool b => rfl
    | jnum q => rfl
    | jarr es => rfl
    | jobj fs => rfl

/-- C6 (witness): the statement at a concrete invocation whose `list_id`
is a number instead of a string. -/
theorem c6_listTasks_bad_list_id_invalid_params_witness :
    callToolHandler (fun _ => .success ⟨200, .jobj []⟩)
      ⟨"list_tasks", some [("list_id", .jnum 5)]⟩ =
      ⟨.thrown ⟨.invalidParams, "list_id (string) is required"⟩, []⟩ :=
  c6_listTasks_bad_list_id_invalid_params (fun _ => .success ⟨200, .jobj []⟩)
    (some [("list_id", .jnum 5)])
    (fun _ hs => JVal.noConfusion (Option.some.inj hs))

/-! ## Claim C7 -/

/-- C7: with the `CLICKUP_API_KEY` environment variable unset, startup
aborts with the descriptive message of the source's thrown `Error`, and the
serving loop never handles any request: whatever requests would have
arrived, none produces a result. -/
theorem c7_missing_api_key_fatal :
    startupCheck none = .error "CLICKUP_API_KEY environment variable is required"
    ∧ ∀ (remote : RemoteOracle) (reqs : List CallParams),
        serveRequests none remote reqs = [] :=
  ⟨rfl, fun _ _ => rfl⟩

/-! ## Claim C8 -/

/-- C8: every tool-catalog query returns exactly the two declared tools,
`list_tasks` then `create_task`, with their declared input schemas (object
schemas whose `required` lists are `["list_id"]` and `["list_id", "name"]`
respectively), and repeated queries return identical catalogs. -/
theorem c8_tool_catalog_fixed :
    (∀ u v : Unit, listToolsHandler u = listToolsHandler v)
    ∧ listToolsHandler () = [listTasksTool, createTaskTool]
    ∧ (listToolsHandler ()).map ToolDef.name = ["list_tasks", "create_task"]
    ∧ jfield listTasksTool.inputSchema "type" = some (.jstr "object")
    ∧ jfield listTasksTool.inputSchema "required" = some (.jarr [.jstr "list_id"])
    ∧ jfield createTaskTool.inputSchema "type" = some (.jstr "object")
    ∧ jfield createTaskTool.inputSchema "required" =
        some (.jarr [.jstr "list_id", .jstr "name"]) :=
  ⟨fun _ _ => rfl, rfl, rfl, rfl, rfl, rfl, rfl⟩

/-! ## Claim C9 -/

/-- C9: `create_task` rejects an empty-string `list_id` or `name` with the
invalid-parameters protocol error and no remote request, even though the
argument has the declared string type; `list_tasks`, whose check is only
`typeof !== 'string'`, accepts an empty-string `list_id` and issues the
remote GET to `/list//task`. -/
theorem c9_empty_string_args (remote : RemoteOracle)
    (args : Option (List (String × JVal)))
    (h : getArg ⟨"create_task", args⟩ "list_id" = some (.jstr "")
       ∨ getArg ⟨"create_task", args⟩ "name" = some (.jstr "")) :
    (∃ m, callToolHandler remote ⟨"create_task", args⟩ =
        ⟨.thrown ⟨.invalidParams, m⟩, []⟩)
    ∧ ∀ remoteL : RemoteOracle,
        (callToolHandler remoteL ⟨"list_tasks", some [("list_id", .jstr "")]⟩).requests =
          [⟨.get, "/list//task", none⟩] := by
  constructor
  · rw [callTool_createTask]
    apply createTaskRun_invalid
    rintro ⟨l, n, hL, hl0, hN, hn0, _, _⟩
    rcases h with h | h
    · rw [h] at hL
      exact hl0 (JVal.jstr.inj (Option.some.inj hL)).symm
    · rw [h] at hN
      exact hn0 (JVal.jstr.inj (Option.some.inj hN)).symm
  · intro remoteL
    rw [callTool_listTasks,
        listTasksRun_valid remoteL ⟨"list_tasks", some [("list_id", .jstr "")]⟩ "" rfl]
    cases remoteL ⟨.get, "/list/" ++ "" ++ "/task", none⟩ <;> rfl

/-- C9 (witness): the statement at a concrete invocation with an
empty-string `list_id`. -/
theorem c9_empty_string_args_witness :
    (∃ m, callToolHandler (fun _ => .success ⟨200, .jobj []⟩)
        ⟨"create_task", some [("list_id", .jstr ""), ("name", .jstr "x")]⟩ =
        ⟨.thrown ⟨.invalidParams, m⟩, []⟩)
    ∧ ∀ remoteL : RemoteOracle,
        (callToolHandler remoteL ⟨"list_tasks", some [("list_id", .jstr "")]⟩).requests =
          [⟨.get, "/list//task", none⟩] :=
  c9_empty_string_args (fun _ => .success ⟨200, .jobj []⟩)
    (some [("list_id", .jstr ""), ("name", .jstr "x")]) (Or.inl rfl)

/-! ## Claim C10 -/

/-- C10: when the `description` argument of `create_task` is present and
equal to the empty string, validation succeeds (the handler returns a reply,
throwing nothing) and the single forwarded POST body carries no
`description` key: `if (description)` tests truthiness and silently drops
the empty string. -/
theorem c10_empty_description_dropped (remote : RemoteOracle)
    (args : Option (List (String × JVal))) (l n : String)
    (hl : getArg ⟨"create_task", args⟩ "list_id" = some (.jstr l)) (hl0 : l ≠ "")
    (hn : getArg ⟨"create_task", args⟩ "name" = some (.jstr n)) (hn0 : n ≠ "")
    (hd : getArg ⟨"create_task", args⟩ "description" = some (.jstr ""))
    (ha : assigneesOk (getArg ⟨"create_task", args⟩ "assignees") = true) :
    (∃ r, (callToolHandler remote ⟨"create_task", args⟩).outcome = .reply r)
    ∧ (callToolHandler remote ⟨"create_task", args⟩).requests =
        [⟨.post, "/list/" ++ l ++ "/task",
          some (createTaskPayload n (some (.jstr ""))
            (getArg ⟨"create_task", args⟩ "assignees"))⟩]
    ∧ jfield (createTaskPayload n (some (.jstr ""))
        (getArg ⟨"create_task", args⟩ "assignees")) "description" = none := by
  have hdok : descOk (getArg ⟨"create_task", args⟩ "description") = true := by
    rw [hd]; rfl
  have hdesc : jfield (createTaskPayload n (some (.jstr ""))
      (getArg ⟨"create_task", args⟩ "assignees")) "description" = none := by
    unfold createTaskPayload
    cases hA : getArg ⟨"create_task", args⟩ "assignees" with
    | none => rfl
    | some a =>
        dsimp only
        cases truthy a with
        | false => rfl
        | true => rfl
  refine ⟨?_, ?_, hdesc⟩
  · rw [callTool_createTask,
        createTaskRun_valid remote _ l n hl hl0 hn hn0 hdok ha, hd]
    cases remote ⟨.post, "/list/" ++ l ++ "/task",
        some (createTaskPayload n (some (.jstr ""))
          (getArg ⟨"create_task", args⟩ "assignees"))⟩ with
    | success resp => exact ⟨_, rfl⟩
    | failure e => exact ⟨_, rfl⟩
  · rw [callTool_createTask,
        createTaskRun_valid remote _ l n hl hl0 hn hn0 hdok ha, hd]
    cases remote ⟨.post, "/list/" ++ l ++ "/task",
        some (createTaskPayload n (some (.jstr ""))
          (getArg ⟨"create_task", args⟩ "assignees"))⟩ with
    | success resp => rfl
    | failure e => rfl

/-- C10 (witness): the statement at a concrete invocation carrying
`description: ""`. -/
theorem c10_empty_description_dropped_witness :
    (∃ r, (callToolHandler (fun _ => .success ⟨200, .jobj []⟩)
        ⟨"create_task", some [("list_id", .jstr "L"), ("name", .jstr "n"),
          ("description", .jstr "")]⟩).outcome = .reply r)
    ∧ (callToolHandler (fun _ => .success ⟨200, .jobj []⟩)
        ⟨"create_task", some [("list_id", .jstr "L"), ("name", .jstr "n"),
          ("description", .jstr "")]⟩).requests =
        [⟨.post, "/list/L/task", some (createTaskPayload "n" (some (.jstr "")) none)⟩]
    ∧ jfield (createTaskPayload "n" (some (.jstr "")) none) "description" = none :=
  c10_empty_description_dropped (fun _ => .success ⟨200, .jobj []⟩)
    (some [("list_id", .jstr "L"), ("name", .jstr "n"), ("description", .jstr "")])
    "L" "n" rfl (by decide) rfl (by decide) rfl rfl

end ClickUp
